import Mathlib

/-!
Verification of the index-loading and snapshot-consolidation subsystem of a
content-addressable object store (`git-odb/src/store/general/load_indices.rs`).

The embedding is a shallow, sequential model of the source fragment:
paths, loose databases and loaded pack/index resources become opaque `Nat`
tokens; the atomically-swappable current `Index` becomes a plain field read;
the `alternate::resolve` collaborator (outside the fragment) is a function
parameter returning `Except`. Rust `todo!()` divergence is modelled with a
dedicated `RResult.panic` constructor so that panics are observable facts of
the model rather than being silently dropped.
-/

/-- `RefreshMode` from the crate root: how aggressively to look for new packs. -/
inductive RefreshMode where
  | never
  | afterAllIndicesLoaded
deriving DecidableEq

/-- `store::SlotIndexMarker`: the `(generation, state_id)` pair a caller retains. -/
structure SlotIndexMarker where
  generation : Nat
  state_id : Nat
deriving DecidableEq

/-- A lazily loaded on-disk file; `loaded` mirrors `OnDiskFile::loaded()`
returning `Option` of the loaded resource (an opaque token here). -/
structure OnDiskFile where
  loaded : Option Nat
deriving DecidableEq

/-- The single pack bundle held by `store::IndexAndPacks::Index`. -/
structure IndexFileBundle where
  index : OnDiskFile
  data : OnDiskFile
deriving DecidableEq

/-- The multi-pack-index bundle held by `store::IndexAndPacks::MultiIndex`. -/
structure MultiIndexFileBundle where
  multi_index : OnDiskFile
  data : List OnDiskFile
deriving DecidableEq

/-- `store::IndexAndPacks`: content of a populated slot. -/
inductive IndexAndPacks where
  | index (bundle : IndexFileBundle)
  | multiIndex (multi : MultiIndexFileBundle)
deriving DecidableEq

/-- `handle::SingleOrMultiIndex`: the materialized lookup of one slot. -/
inductive SingleOrMultiIndex where
  | single (index : Nat) (data : Option Nat)
  | multi (index : Nat) (data : List (Option Nat))
deriving DecidableEq

/-- `handle::IndexLookup`: a lookup plus the slot id it came from. -/
structure IndexLookup where
  file : SingleOrMultiIndex
  id : Nat
deriving DecidableEq

/-- The authoritative `store::SlotMapIndex`: which slots are populated, in what
order, with what loose databases, tagged with `generation` and `state_id`.
`is_init` mirrors `is_initialized()` (whether a disk scan ever happened). -/
structure SlotMapIndex where
  slot_indices : List Nat
  loose_dbs : List Nat
  generation : Nat
  state_id : Nat
  is_init : Bool
deriving DecidableEq

/-- `SlotMapIndex::marker()`: the lightweight comparison token of an Index. -/
def SlotMapIndex.marker (i : SlotMapIndex) : SlotIndexMarker :=
  { generation := i.generation, state_id := i.state_id }

/-- The `Store`: current Index, per-slot file state (`files[i].files.load()`),
the objects-directory path, and the atomic counters used by the fragment. -/
structure Store where
  index : SlotMapIndex
  files : List (Option IndexAndPacks)
  path : Nat
  num_handles_stable : Nat
  num_disk_state_consolidation : Nat
deriving DecidableEq

/-- The `Snapshot` returned for an actual object search. -/
structure Snapshot where
  indices : List IndexLookup
  loose_dbs : List Nat
  marker : SlotIndexMarker
deriving DecidableEq

/-- `Outcome` of `load_next_indices`. -/
inductive Outcome where
  | replace (snapshot : Snapshot)
  | replaceStable (snapshot : Snapshot)
deriving DecidableEq

/-- Model of `std::io::Error` as built by the fragment:
`std::io::Error::new(ErrorKind::Other, err)` wrapping the resolver error. -/
structure IoError where
  other_source : String
deriving DecidableEq

/-- Result of a Rust call in the model: `Ok`, `Err`, or divergence via
`todo!()`/panic, which the source fragment contains. -/
inductive RResult (α : Type) where
  | ok (value : α)
  | err (e : IoError)
  | panic (msg : String)
deriving DecidableEq

/-- The `alternate::resolve` collaborator: given the objects directory,
returns the alternate object directories, or an error. -/
abbrev Resolver := Nat → Except String (List Nat)

/-- The body of the `filter_map` in `collect_snapshot`, for one slot's file
state: skip unpopulated slots (`as_ref()?`) and slots whose index resource is
not loaded (`loaded()?`); otherwise build the lookup. -/
def slot_lookup (file : Option IndexAndPacks) : Option SingleOrMultiIndex :=
  match file with
  | none => none
  | some (IndexAndPacks.index bundle) =>
      (bundle.index.loaded).map (fun i => SingleOrMultiIndex.single i bundle.data.loaded)
  | some (IndexAndPacks.multiIndex multi) =>
      (multi.multi_index.loaded).map
        (fun i => SingleOrMultiIndex.multi i (multi.data.map (fun f => f.loaded)))

/-- `Store::collect_snapshot`. -/
def collect_snapshot (s : Store) : Snapshot :=
  let index := s.index
  let indices := index.slot_indices.filterMap (fun idx =>
    (slot_lookup (s.files.getD idx none)).map (fun lookup => IndexLookup.mk lookup idx))
  { indices := indices
    loose_dbs := index.loose_dbs
    marker := index.marker }

/-- `Store::collect_replace_outcome`. -/
def collect_replace_outcome (s : Store) (is_stable : Bool) : Outcome :=
  let snapshot := collect_snapshot s
  if is_stable then Outcome.replaceStable snapshot else Outcome.replace snapshot

/-- `Store::consolidate_with_disk_state`: lock the path, re-check the
state id (`todo!("return …")` on mismatch), bump the consolidation counter,
resolve alternates (errors wrapped into an io error and returned), prepend the
objects directory, then `todo!()`. The returned `Store` carries the state
mutation (the counter bump). -/
def consolidate_with_disk_state (resolve : Resolver) (s : Store) (seen : Nat) :
    Store × RResult (Option Outcome) :=
  let objects_directory := s.path
  if seen ≠ s.index.state_id then
    (s, RResult.panic "return …")
  else
    let s1 := { s with num_disk_state_consolidation := s.num_disk_state_consolidation + 1 }
    match resolve objects_directory with
    | Except.error e => (s1, RResult.err { other_source := e })
    | Except.ok alternates =>
        let db_paths := objects_directory :: alternates
        (s1, RResult.panic "todo")

/-- The `db_paths` list as assembled by lines 75–78 of
`consolidate_with_disk_state`: the resolver output with the store's own
objects directory inserted at position 0. -/
def consolidation_db_paths (resolve : Resolver) (s : Store) : Except String (List Nat) :=
  (resolve s.path).map (fun db => s.path :: db)

/-- `Store::load_next_indices`. -/
def load_next_indices (resolve : Resolver) (s : Store) (refresh_mode : RefreshMode)
    (marker : Option SlotIndexMarker) : Store × RResult (Option Outcome) :=
  let index := s.index
  let state_id := index.state_id
  if !index.is_init then
    consolidate_with_disk_state resolve s state_id
  else
    match marker with
    | some m =>
        if m.generation ≠ index.generation then
          (s, RResult.ok (some (collect_replace_outcome s false)))
        else if m.state_id = state_id then
          match refresh_mode with
          | RefreshMode.never => (s, RResult.ok none)
          | RefreshMode.afterAllIndicesLoaded => consolidate_with_disk_state resolve s state_id
        else
          (s, RResult.ok (some (collect_replace_outcome s true)))
    | none => (s, RResult.ok (some (collect_replace_outcome s false)))

/-- `Store::may_unload_packs` (the guard argument carries no data in the
sequential model). -/
def may_unload_packs (s : Store) : Bool :=
  s.num_handles_stable = 0

/-- `n + 1` successive calls of `load_next_indices` with `RefreshMode::Never`
and the same marker, each threaded through the store the previous call left
behind; the pair returned is the final store and the final call's result. -/
def load_never_iter (resolve : Resolver) (m : SlotIndexMarker) :
    Nat → Store → Store × RResult (Option Outcome)
  | 0, s => load_next_indices resolve s RefreshMode.never (some m)
  | n + 1, s => load_never_iter resolve m n
      (load_next_indices resolve s RefreshMode.never (some m)).1

/-- The argument combinations for which `load_next_indices` never enters
`consolidate_with_disk_state` on an initialized index: no marker, a
generation mismatch, a state-id mismatch, or a full match under
`RefreshMode::Never`. -/
def avoids_consolidation (s : Store) (mode : RefreshMode)
    (marker : Option SlotIndexMarker) : Prop :=
  marker = none
  ∨ ∃ m, marker = some m ∧
      (m.generation ≠ s.index.generation
        ∨ m.state_id ≠ s.index.state_id
        ∨ mode = RefreshMode.never)

/-- Modelled from the spec: the index-publication step of disk consolidation
is `todo!()` in the shown fragment. Per §4.2 every consolidation "allocates a
new `state_id` (and a new `generation` only if a non-additive reorganization
… is required)", and per §3 and §5 both `generation` and `state_id` are
monotonically increasing for the lifetime of the store: a publication keeps
or strictly increases the generation, and always strictly increases the
state id (the freshly allocated one from a monotone generator). -/
def publishes (i j : SlotMapIndex) : Prop :=
  (j.generation = i.generation ∨ i.generation < j.generation)
    ∧ i.state_id < j.state_id

/-- One operation on a single `Store` instance: either a call into the shown
fragment (`load_next_indices`, whose returned store is the state it leaves
behind; `collect_snapshot` and `may_unload_packs` read the store without
changing it), or a publication of a new index by the part of consolidation
missing from the fragment, modelled from the spec via `publishes`. -/
inductive StoreStep (resolve : Resolver) : Store → Store → Prop
  | load (s : Store) (mode : RefreshMode) (marker : Option SlotIndexMarker) :
      StoreStep resolve s (load_next_indices resolve s mode marker).1
  | publish (s : Store) (j : SlotMapIndex) (files' : List (Option IndexAndPacks))
      (n' : Nat) (h : publishes s.index j) :
      StoreStep resolve s
        { s with index := j, files := files', num_disk_state_consolidation := n' }

/-- Lexicographic order on markers, generation first. -/
def marker_le (a b : SlotIndexMarker) : Prop :=
  a.generation < b.generation ∨ (a.generation = b.generation ∧ a.state_id ≤ b.state_id)

/-- A sample initialized store: two populated slots (one single-pack bundle
with a loaded index, one multi-pack-index bundle), one loose db. -/
def store_a : Store :=
  { index := { slot_indices := [0, 1], loose_dbs := [7], generation := 1,
               state_id := 3, is_init := true }
    files := [some (IndexAndPacks.index
                { index := { loaded := some 10 }, data := { loaded := none } }),
              some (IndexAndPacks.multiIndex
                { multi_index := { loaded := some 20 },
                  data := [{ loaded := some 21 }, { loaded := none }] })]
    path := 42
    num_handles_stable := 1
    num_disk_state_consolidation := 0 }

/-- A sample store whose index is not yet initialized (no disk scan ever
happened). -/
def store_u : Store :=
  { index := { slot_indices := [], loose_dbs := [], generation := 0,
               state_id := 0, is_init := false }
    files := []
    path := 42
    num_handles_stable := 0
    num_disk_state_consolidation := 0 }

/-- A sample published successor of `store_a`: same generation, larger
state id, one more populated slot. -/
def store_b : Store :=
  { store_a with
      index := { slot_indices := [0, 1, 2], loose_dbs := [7], generation := 1,
                 state_id := 4, is_init := true }
      files := store_a.files ++ [none]
      num_disk_state_consolidation := 1 }

/-- A resolver that always finds one alternate object directory. -/
def resolve_one : Resolver := fun _ => Except.ok [5]

/-- A resolver that always fails. -/
def resolve_bad : Resolver := fun _ => Except.error "alternates file malformed"

/-! ## Helper lemmas -/

/-- The shown part of disk consolidation only bumps the consolidation counter
before its `todo!()`: it never swaps the current index. -/
theorem consolidate_index_eq (resolve : Resolver) (s : Store) (seen : Nat) :
    (consolidate_with_disk_state resolve s seen).1.index = s.index := by
  unfold consolidate_with_disk_state
  split
  · rfl
  · cases h : resolve s.path <;> simp [h]

/-- No path of `load_next_indices` changes the current index: the replace and
`Ok(None)` paths return the store unchanged, and the shown part of disk
consolidation only bumps the consolidation counter before its `todo!()`. -/
theorem load_next_indices_index_eq (resolve : Resolver) (s : Store)
    (mode : RefreshMode) (marker : Option SlotIndexMarker) :
    (load_next_indices resolve s mode marker).1.index = s.index := by
  unfold load_next_indices
  cases h : s.index.is_init with
  | false => simpa [h] using consolidate_index_eq resolve s s.index.state_id
  | true =>
      cases marker with
      | none => simp [h]
      | some m =>
          by_cases hg : m.generation = s.index.generation
          · by_cases hs : m.state_id = s.index.state_id
            · cases mode with
              | never => simp [h, hg, hs]
              | afterAllIndicesLoaded =>
                  simpa [h, hg, hs] using consolidate_index_eq resolve s s.index.state_id
            · simp [h, hg, hs]
          · simp [h, hg]

/-- Mapping `IndexLookup.id` over the `filter_map` of `collect_snapshot`
recovers exactly the slot ids whose lookup succeeded, in order. -/
theorem filterMap_lookup_ids (l : List Nat) (f : Nat → Option SingleOrMultiIndex) :
    (l.filterMap (fun idx => (f idx).map (fun lk => IndexLookup.mk lk idx))).map
        IndexLookup.id
      = l.filter (fun idx => (f idx).isSome) := by
  induction l with
  | nil => simp
  | cons a t ih => cases h : f a <;> simp [h, ih]

/-- `marker_le` is reflexive. -/
theorem marker_le_refl (a : SlotIndexMarker) : marker_le a a := by
  exact Or.inr ⟨rfl, le_refl _⟩

/-- `marker_le` is transitive. -/
theorem marker_le_trans {a b c : SlotIndexMarker} (h1 : marker_le a b)
    (h2 : marker_le b c) : marker_le a c := by
  rcases h1 with h1 | ⟨h1, h1s⟩ <;> rcases h2 with h2 | ⟨h2, h2s⟩
  · exact Or.inl (h1.trans h2)
  · exact Or.inl (h2 ▸ h1)
  · exact Or.inl (h1 ▸ h2)
  · exact Or.inr ⟨h1.trans h2, h1s.trans h2s⟩

/-- A single operation can only move the marker forward lexicographically,
and never lowers the state id. -/
theorem storeStep_marker_le {resolve : Resolver} {s t : Store}
    (h : StoreStep resolve s t) :
    marker_le s.index.marker t.index.marker
      ∧ s.index.marker.state_id ≤ t.index.marker.state_id := by
  cases h with
  | load mode marker =>
      rw [load_next_indices_index_eq]
      exact ⟨marker_le_refl _, le_refl _⟩
  | publish j files' n' hp =>
      obtain ⟨hg, hs⟩ := hp
      refine ⟨?_, le_of_lt hs⟩
      rcases hg with hg | hg
      · exact Or.inr ⟨hg.symm, le_of_lt hs⟩
      · exact Or.inl hg

/-! ## Claims -/

/-- Claim C1: on a store whose current index is initialized, a `None` marker,
or a `Some` marker whose generation differs from the current index's
generation, makes `load_next_indices` return
`Ok(Some(Outcome::Replace(snapshot)))` built from the current in-memory
index, with the store unchanged (so no disk consolidation happened) and the
result independent of `refresh_mode` and of the resolver. -/
theorem load_stale_marker_replaces (resolve : Resolver) (s : Store)
    (mode : RefreshMode) (marker : Option SlotIndexMarker)
    (hinit : s.index.is_init = true)
    (hstale : marker = none
      ∨ ∃ m, marker = some m ∧ m.generation ≠ s.index.generation) :
    load_next_indices resolve s mode marker
      = (s, RResult.ok (some (Outcome.replace (collect_snapshot s)))) := by
  rcases hstale with hm | ⟨m, hm, hg⟩
  · subst hm
    simp [load_next_indices, hinit, collect_replace_outcome]
  · subst hm
    simp [load_next_indices, hinit, hg, collect_replace_outcome]

/-- Claim C1 witness, at the sample initialized store with a `None` marker. -/
theorem load_stale_marker_replaces_witness :
    load_next_indices resolve_one store_a RefreshMode.never none
      = (store_a, RResult.ok (some (Outcome.replace (collect_snapshot store_a)))) :=
  load_stale_marker_replaces resolve_one store_a RefreshMode.never none
    (by decide) (Or.inl rfl)

/-- Claim C2: on a store whose current index is initialized, a marker with the
current generation but a different state id makes `load_next_indices` return
`Ok(Some(Outcome::ReplaceStable(snapshot)))` built from the current in-memory
index, with the store unchanged (no disk consolidation) and the result
independent of `refresh_mode` and of the resolver. -/
theorem load_additive_marker_replace_stable (resolve : Resolver) (s : Store)
    (mode : RefreshMode) (m : SlotIndexMarker)
    (hinit : s.index.is_init = true)
    (hg : m.generation = s.index.generation)
    (hs : m.state_id ≠ s.index.state_id) :
    load_next_indices resolve s mode (some m)
      = (s, RResult.ok (some (Outcome.replaceStable (collect_snapshot s)))) := by
  simp [load_next_indices, hinit, hg, hs, collect_replace_outcome]

/-- Claim C2 witness: the sample store has generation 1 and state id 3; a
marker `(1, 2)` yields the stable replace outcome. -/
theorem load_additive_marker_replace_stable_witness :
    load_next_indices resolve_one store_a RefreshMode.afterAllIndicesLoaded
        (some { generation := 1, state_id := 2 })
      = (store_a, RResult.ok (some (Outcome.replaceStable (collect_snapshot store_a)))) :=
  load_additive_marker_replace_stable resolve_one store_a
    RefreshMode.afterAllIndicesLoaded { generation := 1, state_id := 2 }
    (by decide) (by decide) (by decide)

/-- Claim C3: on a store whose current index is initialized, calling
`load_next_indices(RefreshMode::Never, Some(marker))` with a marker matching
the current generation and state id returns `Ok(None)` with the store
unchanged, and therefore any number of repeated such calls (each threaded
through the store the previous call returned) keeps returning `Ok(None)`. -/
theorem load_never_matching_marker_none (resolve : Resolver) (s : Store)
    (m : SlotIndexMarker) (n : Nat)
    (hinit : s.index.is_init = true)
    (hg : m.generation = s.index.generation)
    (hs : m.state_id = s.index.state_id) :
    load_never_iter resolve m n s = (s, RResult.ok none) := by
  have hstep : load_next_indices resolve s RefreshMode.never (some m)
      = (s, RResult.ok none) := by
    simp [load_next_indices, hinit, hg, hs]
  induction n with
  | zero => simpa [load_never_iter] using hstep
  | succ k ih =>
      rw [load_never_iter, hstep]
      exact ih

/-- Claim C3 witness: three successive `Never` calls at the sample store with
its own marker all return `Ok(None)` and leave the store unchanged. -/
theorem load_never_matching_marker_none_witness :
    load_never_iter resolve_one { generation := 1, state_id := 3 } 2 store_a
      = (store_a, RResult.ok none) :=
  load_never_matching_marker_none resolve_one store_a
    { generation := 1, state_id := 3 } 2 (by decide) (by decide) (by decide)

/-- Claim C4: on a store whose current index is not yet initialized,
`load_next_indices` performs disk consolidation with the observed state id
and returns its outcome, whatever the refresh mode and the marker. -/
theorem load_uninit_consolidates (resolve : Resolver) (s : Store)
    (mode : RefreshMode) (marker : Option SlotIndexMarker)
    (h : s.index.is_init = false) :
    load_next_indices resolve s mode marker
      = consolidate_with_disk_state resolve s s.index.state_id := by
  simp [load_next_indices, h]

/-- Claim C4 witness, at the uninitialized sample store with `Never` and a
`Some` marker. -/
theorem load_uninit_consolidates_witness :
    load_next_indices resolve_one store_u RefreshMode.never
        (some { generation := 0, state_id := 0 })
      = consolidate_with_disk_state resolve_one store_u store_u.index.state_id :=
  load_uninit_consolidates resolve_one store_u RefreshMode.never
    (some { generation := 0, state_id := 0 }) (by decide)

/-- Claim C5: `may_unload_packs` returns true exactly when the count of live
handles with a stability requirement is zero; in particular it is false
whenever at least one such handle is live. -/
theorem may_unload_packs_iff (s : Store) :
    may_unload_packs s = true ↔ s.num_handles_stable = 0 := by
  simp [may_unload_packs]

/-- Claim C6: on a store whose slot ids are in bounds, `collect_snapshot`
includes a lookup entry exactly for those populated slot ids of the current
index whose index resource has finished loading (in-flight slots are silently
dropped), preserves the index's slot order, forwards the index's
loose-object-database list unchanged (the model of `Arc::clone` sharing), and
carries a marker equal to the marker of the index it was built from. -/
theorem collect_snapshot_spec (s : Store)
    (hb : ∀ i ∈ s.index.slot_indices, i < s.files.length) :
    (collect_snapshot s).indices.map IndexLookup.id
        = s.index.slot_indices.filter
            (fun idx => (slot_lookup (s.files.getD idx none)).isSome)
    ∧ (∀ e ∈ (collect_snapshot s).indices,
        slot_lookup (s.files.getD e.id none) = some e.file)
    ∧ (collect_snapshot s).loose_dbs = s.index.loose_dbs
    ∧ (collect_snapshot s).marker = s.index.marker := by
  refine ⟨?_, ?_, rfl, rfl⟩
  · simpa [collect_snapshot] using
      filterMap_lookup_ids s.index.slot_indices
        (fun idx => slot_lookup (s.files.getD idx none))
  · intro e he
    have hmem : e ∈ s.index.slot_indices.filterMap (fun idx =>
        (slot_lookup (s.files.getD idx none)).map
          (fun lookup => IndexLookup.mk lookup idx)) := he
    rw [List.mem_filterMap] at hmem
    obtain ⟨a, _, hsome⟩ := hmem
    rcases Option.map_eq_some'.mp hsome with ⟨lk, hlk, hmk⟩
    subst hmk
    simpa using hlk

/-- Claim C6 witness at the sample store: slot 0 contributes a single-index
lookup, slot 1 a multi-index lookup whose second pack is still unloaded. -/
theorem collect_snapshot_spec_witness :
    (collect_snapshot store_a).indices.map IndexLookup.id
        = store_a.index.slot_indices.filter
            (fun idx => (slot_lookup (store_a.files.getD idx none)).isSome)
    ∧ (∀ e ∈ (collect_snapshot store_a).indices,
        slot_lookup (store_a.files.getD e.id none) = some e.file)
    ∧ (collect_snapshot store_a).loose_dbs = store_a.index.loose_dbs
    ∧ (collect_snapshot store_a).marker = store_a.index.marker :=
  collect_snapshot_spec store_a (by decide)

/-- Claim C7 counterexample: the claim says `load_next_indices` and disk
consolidation never panic and report every failure through the result value,
but the source's `consolidate_with_disk_state` reaches `todo!()` (a panic)
both after a successful alternates resolution (here: the very first call on
an uninitialized store) and when the re-check under the mutex sees a state id
other than the one the caller observed. -/
theorem consolidation_panics_cex :
    (load_next_indices resolve_one store_u RefreshMode.never none).2
        = RResult.panic "todo"
    ∧ (consolidate_with_disk_state resolve_one store_a 99).2
        = RResult.panic "return …" :=
  ⟨rfl, rfl⟩

/-- Claim C7 as amended: on an initialized index, every argument combination
that avoids disk consolidation (no marker, generation mismatch, state-id
mismatch, or a full match under `RefreshMode::Never`) returns `Ok` — it
neither panics nor errors; the consolidation paths themselves are
unimplemented (`todo!()`) in the source and do panic. -/
theorem load_no_consolidation_no_panic (resolve : Resolver) (s : Store)
    (mode : RefreshMode) (marker : Option SlotIndexMarker)
    (hinit : s.index.is_init = true)
    (h : avoids_consolidation s mode marker) :
    ∃ v, (load_next_indices resolve s mode marker).2 = RResult.ok v := by
  rcases h with hm | ⟨m, hm, hcase⟩
  · subst hm
    exact ⟨some (Outcome.replace (collect_snapshot s)),
      by simp [load_next_indices, hinit, collect_replace_outcome]⟩
  · subst hm
    by_cases hg : m.generation = s.index.generation
    · by_cases hs : m.state_id = s.index.state_id
      · have hmode : mode = RefreshMode.never := by
          rcases hcase with hno | hno | hno
          · exact absurd hg hno
          · exact absurd hs hno
          · exact hno
        subst hmode
        exact ⟨none, by simp [load_next_indices, hinit, hg, hs]⟩
      · exact ⟨some (Outcome.replaceStable (collect_snapshot s)),
          by simp [load_next_indices, hinit, hg, hs, collect_replace_outcome]⟩
    · exact ⟨some (Outcome.replace (collect_snapshot s)),
        by simp [load_next_indices, hinit, hg, collect_replace_outcome]⟩

/-- Claim C7 (amended) witness: a matching marker under `Never` at the sample
store returns `Ok`. -/
theorem load_no_consolidation_no_panic_witness :
    ∃ v, (load_next_indices resolve_one store_a RefreshMode.never
        (some { generation := 1, state_id := 3 })).2 = RResult.ok v :=
  load_no_consolidation_no_panic resolve_one store_a RefreshMode.never
    (some { generation := 1, state_id := 3 }) (by decide)
    (Or.inr ⟨{ generation := 1, state_id := 3 }, rfl, Or.inr (Or.inr rfl)⟩)

/-- Claim C8: over any sequence of operations on a single store — calls into
the shown fragment plus index publications as the spec describes them — the
observed `(generation, state_id)` marker of the current index is
non-decreasing in lexicographic order, generation first, and in addition a
caller that has observed some `state_id` value never later observes a smaller
one from the same store. -/
theorem store_marker_monotone (resolve : Resolver) (s t : Store)
    (h : Relation.ReflTransGen (StoreStep resolve) s t) :
    marker_le s.index.marker t.index.marker
      ∧ s.index.marker.state_id ≤ t.index.marker.state_id := by
  induction h with
  | refl => exact ⟨marker_le_refl _, le_refl _⟩
  | tail hst hstep ih =>
      obtain ⟨h1, h2⟩ := storeStep_marker_le hstep
      exact ⟨marker_le_trans ih.1 h1, ih.2.trans h2⟩

/-- Claim C8 witness: one publication step from the sample store to its
successor (same generation, state id 3 → 4) keeps the marker non-decreasing
in both senses. -/
theorem store_marker_monotone_witness :
    marker_le store_a.index.marker store_b.index.marker
      ∧ store_a.index.marker.state_id ≤ store_b.index.marker.state_id :=
  store_marker_monotone resolve_one store_a store_b
    (Relation.ReflTransGen.single
      (StoreStep.publish store_a
        { slot_indices := [0, 1, 2], loose_dbs := [7], generation := 1,
          state_id := 4, is_init := true }
        (store_a.files ++ [none]) 1 ⟨Or.inl (by decide), by decide⟩))

/-- Claim C9: when the alternates resolution fails, consolidation (entered
with the state id the caller observed) returns `Err` with an io error
wrapping exactly the resolver's failure, and the rest of the store is as
before the call — only the consolidation counter was bumped; in particular no
new index is published. -/
theorem consolidate_resolve_error_propagates (resolve : Resolver) (s : Store)
    (e : String) (h : resolve s.path = Except.error e) :
    consolidate_with_disk_state resolve s s.index.state_id
      = ({ s with num_disk_state_consolidation := s.num_disk_state_consolidation + 1 },
         RResult.err { other_source := e }) := by
  simp [consolidate_with_disk_state, h]

/-- Claim C9 witness, with a resolver whose alternates file is malformed. -/
theorem consolidate_resolve_error_propagates_witness :
    consolidate_with_disk_state resolve_bad store_a store_a.index.state_id
      = ({ store_a with num_disk_state_consolidation :=
             store_a.num_disk_state_consolidation + 1 },
         RResult.err { other_source := "alternates file malformed" }) :=
  consolidate_resolve_error_propagates resolve_bad store_a
    "alternates file malformed" rfl

/-- Claim C10: whenever the alternates resolver succeeds, the `db_paths` list
assembled by consolidation is `Ok`, has the store's own objects directory at
position 0, and carries the resolver's alternate directories after it. -/
theorem consolidation_db_paths_own_dir_at_head (resolve : Resolver) (s : Store)
    (alternates : List Nat) (h : resolve s.path = Except.ok alternates) :
    ∃ l, consolidation_db_paths resolve s = Except.ok l
      ∧ l.head? = some s.path
      ∧ l.tail = alternates := by
  refine ⟨s.path :: alternates, ?_, rfl, rfl⟩
  simp [consolidation_db_paths, h, Except.map]

/-- Claim C10 witness: with one alternate directory `5`, the assembled list is
`[42, 5]` with the objects directory `42` first. -/
theorem consolidation_db_paths_own_dir_at_head_witness :
    ∃ l, consolidation_db_paths resolve_one store_a = Except.ok l
      ∧ l.head? = some store_a.path
      ∧ l.tail = [5] :=
  consolidation_db_paths_own_dir_at_head resolve_one store_a [5] rfl
